import Mathlib

/-!
Verification development for the monitoring subsystem of the Ai_Assistant
repository (`src/monitoring/`).  Python floats are modelled as rationals,
`datetime` values as integer seconds since the epoch (natural numbers), and
the calendar date of a timestamp as its day number `t / 86400`.  Mutable
dictionaries and lists are modelled by Lean structures and lists; where
Python aliasing matters (shallow copies of dicts holding list objects) the
heap of list objects is made explicit.
-/

/-! ### UsageAnalytics (`src/monitoring/usage_analytics.py`) -/

/-- One entry of `current_session["commands"]`, as built by
`UsageAnalytics.record_command`. -/
structure CommandData where
  timestamp : Nat
  ctype : String
  command : String
  success : Bool
  duration : Rat
deriving DecidableEq

/-- The in-memory `current_session` dict of `UsageAnalytics`.  The
`end_time`/`duration` keys are absent until `save_session` adds them, hence
`Option`. -/
structure Session where
  start_time : Nat
  commands : List CommandData
  features_used : List (String × Nat)
  voice_commands : Nat
  text_commands : Nat
  successful_commands : Nat
  failed_commands : Nat
  end_time : Option Nat
  duration : Option Nat
deriving DecidableEq

/-- The fresh session dict built in `UsageAnalytics.__init__` and at the end
of `save_session`. -/
def initSession (now : Nat) : Session :=
  { start_time := now
    commands := []
    features_used := []
    voice_commands := 0
    text_commands := 0
    successful_commands := 0
    failed_commands := 0
    end_time := none
    duration := none }

/-- `UsageAnalytics.record_command`: append the command record, bump the
voice/text counter for those two types only, then bump the
successful/failed counter. -/
def record_command (s : Session) (now : Nat) (command_type command : String)
    (success : Bool) (duration : Rat) : Session :=
  let command_data : CommandData :=
    { timestamp := now, ctype := command_type, command := command
      success := success, duration := duration }
  let s := { s with commands := s.commands ++ [command_data] }
  let s :=
    if command_type == "voice" then
      { s with voice_commands := s.voice_commands + 1 }
    else if command_type == "text" then
      { s with text_commands := s.text_commands + 1 }
    else s
  if success then
    { s with successful_commands := s.successful_commands + 1 }
  else
    { s with failed_commands := s.failed_commands + 1 }

/-- The arguments of one `record_command` call. -/
structure RecordCall where
  now : Nat
  command_type : String
  command : String
  success : Bool
  duration : Rat
deriving DecidableEq

/-- Replay a sequence of `record_command` calls. -/
def runCommands (s : Session) (calls : List RecordCall) : Session :=
  calls.foldl
    (fun s c => record_command s c.now c.command_type c.command c.success c.duration) s

/-- The JSON session file written by `save_session` (the `current_session`
dict at dump time: commands, counters and `start_time` of the session being
closed, plus the freshly added `end_time` and `duration`). -/
structure SessionFile where
  start_time : Nat
  end_time : Nat
  duration : Nat
  commands : List CommandData
  features_used : List (String × Nat)
  voice_commands : Nat
  text_commands : Nat
  successful_commands : Nat
  failed_commands : Nat
deriving DecidableEq

/-- Outcome of a `save_session` call.  `written` is the session file the
call managed to put on disk, `raised` the exception (if any) that escapes
to the caller.  The Python method returns `None` on every path. -/
structure SaveResult where
  state : Session
  written : Option SessionFile
  raised : Option String
deriving DecidableEq

/-- `UsageAnalytics.save_session`.  `writeOk` tells whether the
`open`/`json.dump` of the session file succeeds.  The method first mutates
`current_session` (adding `end_time` and `duration`), then writes the file
and resets the session; any exception is caught by the `except` clause,
which only logs, so nothing is ever raised and no sentinel is returned. -/
def save_session (s : Session) (now : Nat) (writeOk : Bool) : SaveResult :=
  let s := { s with end_time := some now, duration := some (now - s.start_time) }
  if writeOk then
    let file : SessionFile :=
      { start_time := s.start_time, end_time := now, duration := now - s.start_time
        commands := s.commands, features_used := s.features_used
        voice_commands := s.voice_commands, text_commands := s.text_commands
        successful_commands := s.successful_commands
        failed_commands := s.failed_commands }
    { state := initSession now, written := some file, raised := none }
  else
    { state := s, written := none, raised := none }

/-! ### SystemMonitor response-time buffer (`src/monitoring/system_monitor.py`) -/

/-- The body of `SystemMonitor.record_response_time` acting on the
`response_times` list: append, then `pop(0)` once the length passes 100. -/
def record_response_time (buf : List Rat) (response_time : Rat) : List Rat :=
  let buf := buf ++ [response_time]
  if buf.length > 100 then buf.drop 1 else buf

/-- Replay a sequence of `record_response_time` calls on a buffer. -/
def runResponseTimes (buf : List Rat) (xs : List Rat) : List Rat :=
  xs.foldl record_response_time buf

lemma record_response_time_eq (buf : List Rat) (x : Rat) :
    record_response_time buf x =
      if buf.length + 1 > 100 then (buf ++ [x]).drop 1 else buf ++ [x] := by
  simp [record_response_time]

/-- Main buffer lemma: starting from a buffer of at most 100 entries, the
buffer after a run is the suffix of (old ++ new) of length at most 100. -/
lemma runResponseTimes_eq (xs : List Rat) :
    ∀ buf : List Rat, buf.length ≤ 100 →
      runResponseTimes buf xs = (buf ++ xs).drop (buf.length + xs.length - 100) := by
  induction xs with
  | nil =>
      intro buf h
      simp [runResponseTimes, Nat.sub_eq_zero_of_le h]
  | cons x xs ih =>
      intro buf h
      show runResponseTimes (record_response_time buf x) xs = _
      rw [record_response_time_eq]
      by_cases h100 : buf.length + 1 > 100
      · have hlen : buf.length = 100 := by omega
        have hdroplen : ((buf ++ [x]).drop 1).length = 100 := by
          simp [hlen]
        have h1 : (buf ++ [x]).drop 1 = buf.drop 1 ++ [x] := by
          rw [List.drop_append_of_le_length (by omega)]
        have h2 : buf.drop 1 ++ [x] ++ xs = buf.drop 1 ++ (x :: xs) := by
          simp
        have h3 : (buf ++ x :: xs).drop 1 = buf.drop 1 ++ (x :: xs) := by
          rw [List.drop_append_of_le_length (by omega)]
        have h4 : buf.length + (x :: xs).length - 100 = xs.length + 1 := by
          simp [hlen]
        have h5 : (100 : Nat) + xs.length - 100 = xs.length := by omega
        rw [if_pos h100, ih _ (le_of_eq hdroplen), hdroplen, h4, h5, h1, h2, ← h3,
          List.drop_drop, Nat.add_comm 1 xs.length]
      · have hle : (buf ++ [x]).length ≤ 100 := by simp; omega
        have e1 : (buf ++ [x]).length + xs.length - 100
            = buf.length + (x :: xs).length - 100 := by
          simp; omega
        have e2 : buf ++ [x] ++ xs = buf ++ x :: xs := by simp
        rw [if_neg h100, ih _ hle, e1, e2]

/-! ### Per-call counter deltas of `record_command` -/

/-- How one `record_command` call changes the session counters. -/
lemma record_command_counters (s : Session) (now : Nat) (t c : String)
    (b : Bool) (d : Rat) :
    (record_command s now t c b d).commands.length = s.commands.length + 1 ∧
    (record_command s now t c b d).successful_commands
        + (record_command s now t c b d).failed_commands
      = s.successful_commands + s.failed_commands + 1 ∧
    (record_command s now t c b d).voice_commands
        + (record_command s now t c b d).text_commands
      = s.voice_commands + s.text_commands
          + (if t = "voice" ∨ t = "text" then 1 else 0) := by
  by_cases hv : t = "voice" <;> by_cases ht : t = "text" <;> cases b <;>
    simp [record_command, hv, ht] <;> omega

/-- Counter deltas over a whole run of `record_command` calls. -/
lemma runCommands_counters (calls : List RecordCall) :
    ∀ s : Session,
      (runCommands s calls).commands.length = s.commands.length + calls.length ∧
      (runCommands s calls).successful_commands
          + (runCommands s calls).failed_commands
        = s.successful_commands + s.failed_commands + calls.length ∧
      (runCommands s calls).voice_commands + (runCommands s calls).text_commands
        = s.voice_commands + s.text_commands
            + (calls.filter
                (fun c => c.command_type = "voice" ∨ c.command_type = "text")).length := by
  induction calls with
  | nil => intro s; simp [runCommands]
  | cons c calls ih =>
      intro s
      have hstep := record_command_counters s c.now c.command_type c.command
        c.success c.duration
      have htail := ih (record_command s c.now c.command_type c.command
        c.success c.duration)
      have hrun : runCommands s (c :: calls)
          = runCommands (record_command s c.now c.command_type c.command
              c.success c.duration) calls := rfl
      rw [hrun]
      obtain ⟨h1, h2, h3⟩ := hstep
      obtain ⟨g1, g2, g3⟩ := htail
      simp only [List.length_cons]
      refine ⟨by omega, by omega, ?_⟩
      rw [g3, h3]
      by_cases hvt : c.command_type = "voice" ∨ c.command_type = "text"
      · simp [List.filter_cons, hvt]
        omega
      · simp [List.filter_cons, hvt]

/-- C1 (counterexample): a single `record_command` call whose type is
neither `"voice"` nor `"text"` leaves both the voice and the text counter
at 0 while `commands` has one entry, so
`voice_commands + text_commands == len(commands)` fails. -/
theorem record_command_counter_claim_false :
    ¬ ((record_command (initSession 0) 0 "gesture" "wave" true 1).voice_commands
        + (record_command (initSession 0) 0 "gesture" "wave" true 1).text_commands
      = (record_command (initSession 0) 0 "gesture" "wave" true 1).commands.length) := by
  decide

/-- C1 (amended): after any sequence of `record_command` calls,
`successful_commands + failed_commands == len(commands)` always holds, and
`voice_commands + text_commands ≤ len(commands)` with equality whenever
every recorded command type is `"voice"` or `"text"` (other types increment
neither modality counter). -/
theorem session_counter_invariant (t0 : Nat) (calls : List RecordCall) :
    (runCommands (initSession t0) calls).successful_commands
        + (runCommands (initSession t0) calls).failed_commands
      = (runCommands (initSession t0) calls).commands.length ∧
    (runCommands (initSession t0) calls).voice_commands
        + (runCommands (initSession t0) calls).text_commands
      ≤ (runCommands (initSession t0) calls).commands.length ∧
    ((∀ c ∈ calls, c.command_type = "voice" ∨ c.command_type = "text") →
      (runCommands (initSession t0) calls).voice_commands
          + (runCommands (initSession t0) calls).text_commands
        = (runCommands (initSession t0) calls).commands.length) := by
  obtain ⟨h1, h2, h3⟩ := runCommands_counters calls (initSession t0)
  have hfilter : (calls.filter
      (fun c => c.command_type = "voice" ∨ c.command_type = "text")).length
        ≤ calls.length := List.length_filter_le _ _
  have i0 : (initSession t0).commands.length = 0 := rfl
  have i1 : (initSession t0).successful_commands = 0 := rfl
  have i2 : (initSession t0).failed_commands = 0 := rfl
  have i3 : (initSession t0).voice_commands = 0 := rfl
  have i4 : (initSession t0).text_commands = 0 := rfl
  refine ⟨by omega, by omega, ?_⟩
  intro hall
  have hfe : calls.filter
      (fun c => c.command_type = "voice" ∨ c.command_type = "text") = calls := by
    apply List.filter_eq_self.mpr
    intro c hc
    exact decide_eq_true (hall c hc)
  rw [hfe] at h3
  omega

/-- C1 witness: the invariant instantiated on a concrete call sequence of
one voice and one text command. -/
theorem session_counter_invariant_witness :
    (runCommands (initSession 0)
        [⟨1, "voice", "open", true, 1⟩, ⟨2, "text", "close", false, 2⟩]).voice_commands
      + (runCommands (initSession 0)
        [⟨1, "voice", "open", true, 1⟩, ⟨2, "text", "close", false, 2⟩]).text_commands
      = (runCommands (initSession 0)
        [⟨1, "voice", "open", true, 1⟩, ⟨2, "text", "close", false, 2⟩]).commands.length :=
  (session_counter_invariant 0
    [⟨1, "voice", "open", true, 1⟩, ⟨2, "text", "close", false, 2⟩]).2.2
    (by decide)

/-- C4: starting from the empty buffer, after more than 100
`record_response_time` calls the buffer holds exactly 100 entries, namely
the most recent 100 recorded values in insertion order. -/
theorem response_buffer_bound (xs : List Rat) (h : 100 < xs.length) :
    (runResponseTimes [] xs).length = 100 ∧
    runResponseTimes [] xs = xs.drop (xs.length - 100) := by
  have e := runResponseTimes_eq xs [] (by simp)
  simp at e
  refine ⟨?_, e⟩
  rw [e, List.length_drop]
  omega

/-- C4 witness: 101 insertions leave a buffer of length 100. -/
theorem response_buffer_bound_witness :
    100 < (List.replicate 101 (1 : Rat)).length ∧
    (runResponseTimes [] (List.replicate 101 (1 : Rat))).length = 100 :=
  ⟨by rw [List.length_replicate]; omega,
    (response_buffer_bound (List.replicate 101 (1 : Rat))
      (by rw [List.length_replicate]; omega)).1⟩

/-- C5: a successful `save_session` resets the in-memory session (empty
command list, empty feature map, all four counters 0) and writes a session
file holding exactly the pre-reset data: the closed session's commands,
counters, `start_time`, the freshly stamped `end_time` and the computed
`duration`. -/
theorem save_session_reset_and_file (s : Session) (now : Nat) :
    (save_session s now true).state.commands = [] ∧
    (save_session s now true).state.features_used = [] ∧
    (save_session s now true).state.voice_commands = 0 ∧
    (save_session s now true).state.text_commands = 0 ∧
    (save_session s now true).state.successful_commands = 0 ∧
    (save_session s now true).state.failed_commands = 0 ∧
    (save_session s now true).written = some
      { start_time := s.start_time, end_time := now
        duration := now - s.start_time, commands := s.commands
        features_used := s.features_used, voice_commands := s.voice_commands
        text_commands := s.text_commands
        successful_commands := s.successful_commands
        failed_commands := s.failed_commands } := by
  simp [save_session, initSession]

/-- C6: when the file write inside `save_session` fails, the method still
completes silently — the exception is swallowed by the handler, nothing is
re-raised and no file is written, so the caller cannot observe the
failure.  This contradicts the spec's propagation policy, which requires
`save_session` to signal write failures. -/
theorem save_session_write_failure_silent (s : Session) (now : Nat) :
    (save_session s now false).raised = none ∧
    (save_session s now false).written = none := by
  simp [save_session]

/-! ### ErrorTracker (`src/monitoring/error_tracker.py`) -/

/-- The `error_categories` dict of `ErrorTracker.__init__`, in insertion
order. -/
def errorCategories : List (String × List String) :=
  [("system", ["SystemError", "MemoryError", "IOError"]),
   ("network", ["ConnectionError", "TimeoutError"]),
   ("user", ["ValueError", "InputError"]),
   ("permission", ["PermissionError", "AccessError"]),
   ("unknown", ["Exception"])]

/-- Python's `str.endswith`: suffix test, here on the character lists of
the two strings. -/
def strEndsWith (s pat : String) : Bool :=
  pat.data.isSuffixOf s.data

/-- `ErrorTracker._categorize_error`: first category (in dict order) one of
whose type names is a suffix of the error's class name, else `"unknown"`. -/
def categorizeError (error_type : String) : String :=
  match errorCategories.find? (fun p => p.2.any (fun et => strEndsWith error_type et)) with
  | some p => p.1
  | none => "unknown"

/-- One record of an `errors_YYYYMMDD.json` file, as built by
`ErrorTracker.track_error` (the traceback and context fields are not
modelled; no claim touches them). -/
structure ErrorData where
  timestamp : Nat
  etype : String
  message : String
  category : String
deriving DecidableEq

/-- The calendar day of a timestamp (the `strftime("%Y%m%d")` file key). -/
def dayOf (t : Nat) : Nat := t / 86400

/-- The on-disk error logs: day number to the content of that day's
`errors_YYYYMMDD.json` file (absent file = empty list). -/
def emptyErrorStore : Nat → List ErrorData := fun _ => []

/-- `ErrorTracker.track_error`: append the categorized record to today's
error file. -/
def track_error (store : Nat → List ErrorData) (now : Nat)
    (etype message : String) : Nat → List ErrorData :=
  let e : ErrorData :=
    { timestamp := now, etype := etype, message := message
      category := categorizeError etype }
  fun d => if d = dayOf now then store d ++ [e] else store d

/-- The summary dict built by `ErrorTracker.get_error_summary` (the
defaultdict counters are modelled as total functions defaulting to 0; the
`error_trends` list records timestamp, type and category). -/
structure ErrorSummary where
  total_errors : Nat
  error_categories : String → Nat
  most_common_errors : String → Nat
  daily_errors : Nat → Nat
  error_trends : List (Nat × String × String)

/-- `ErrorTracker.get_error_summary`: for `day in range(days)` open the
file of day `start_date + day` (so the window starts at `now - days` days
and stops one day short of today) and count the errors with
`timestamp >= start_date`. -/
def get_error_summary (store : Nat → List ErrorData) (days : Nat)
    (now : Nat) : ErrorSummary :=
  let start := now - days * 86400
  (List.range days).foldl
    (fun acc day =>
      let fileErrors := store (dayOf (start + day * 86400))
      fileErrors.foldl
        (fun acc2 e =>
          if e.timestamp ≥ start then
            { total_errors := acc2.total_errors + 1
              error_categories := fun c =>
                if c = e.category then acc2.error_categories c + 1
                else acc2.error_categories c
              most_common_errors := fun t =>
                if t = e.etype then acc2.most_common_errors t + 1
                else acc2.most_common_errors t
              daily_errors := fun d =>
                if d = dayOf e.timestamp then acc2.daily_errors d + 1
                else acc2.daily_errors d
              error_trends := acc2.error_trends ++ [(e.timestamp, e.etype, e.category)] }
          else acc2)
        acc)
    { total_errors := 0
      error_categories := fun _ => 0
      most_common_errors := fun _ => 0
      daily_errors := fun _ => 0
      error_trends := [] }

/-- C2: tracking one `ValueError("a")` and one `SystemError("b")` at midday
of day 10 (timestamps 907200 and 907201) does write both records, correctly
categorized, into that day's error file — but `get_error_summary(days=1)`
evaluated moments later (timestamp 907202) returns `total_errors = 0` and
empty categories, because the day loop only opens the file of
`start_date = now - 1 day`, i.e. yesterday's file, never today's. -/
theorem error_summary_misses_same_day :
    categorizeError "ValueError" = "user" ∧
    categorizeError "SystemError" = "system" ∧
    ((track_error (track_error emptyErrorStore 907200 "ValueError" "a")
        907201 "SystemError" "b") (dayOf 907201)).length = 2 ∧
    (get_error_summary
        (track_error (track_error emptyErrorStore 907200 "ValueError" "a")
          907201 "SystemError" "b") 1 907202).total_errors = 0 ∧
    (get_error_summary
        (track_error (track_error emptyErrorStore 907200 "ValueError" "a")
          907201 "SystemError" "b") 1 907202).error_categories "user" = 0 ∧
    (get_error_summary
        (track_error (track_error emptyErrorStore 907200 "ValueError" "a")
          907201 "SystemError" "b") 1 907202).error_categories "system" = 0 :=
  ⟨rfl, rfl, rfl, rfl, rfl, rfl⟩

/-! ### `UsageAnalytics.generate_report` -/

/-- The numeric part of the report dict of `generate_report`
(`most_used_features`, `daily_usage`, `peak_usage_hours` and the period
string are not modelled; no claim touches them). -/
structure Report where
  total_sessions : Nat
  total_commands : Nat
  voice_commands : Nat
  text_commands : Nat
  success_rate : Rat
  average_session_duration : Rat
deriving DecidableEq

/-- The report skeleton `generate_report` starts from (and returns
unchanged when no session file falls in the window). -/
def emptyReport : Report :=
  { total_sessions := 0, total_commands := 0, voice_commands := 0
    text_commands := 0, success_rate := 0, average_session_duration := 0 }

/-- `UsageAnalytics.generate_report` on the parsed session files: filter to
sessions with `start_time >= now - days`, accumulate the counters, add each
session's own `successful/(successful+failed)` ratio (when it has any
commands) into `success_rate`, then divide `success_rate` and
`average_session_duration` by the number of sessions. -/
def generate_report (files : List SessionFile) (days : Nat) (now : Nat) : Report :=
  let start := now - days * 86400
  let sessions_data := files.filter (fun s => s.start_time ≥ start)
  if sessions_data.isEmpty then emptyReport
  else
    let report := sessions_data.foldl
      (fun r s =>
        let r := { r with
          total_commands := r.total_commands + s.commands.length
          voice_commands := r.voice_commands + s.voice_commands
          text_commands := r.text_commands + s.text_commands }
        let total_commands := s.successful_commands + s.failed_commands
        let r :=
          if total_commands > 0 then
            { r with success_rate :=
                r.success_rate + (s.successful_commands : Rat) / (total_commands : Rat) }
          else r
        { r with average_session_duration :=
            r.average_session_duration + (s.duration : Rat) })
      { emptyReport with total_sessions := sessions_data.length }
    { report with
        success_rate := report.success_rate / (report.total_sessions : Rat)
        average_session_duration :=
          report.average_session_duration / (report.total_sessions : Rat) }

/-- C3: with exactly three sessions in the window whose
(successful, failed) counters are (8,2), (5,5), (10,0), the report's
`success_rate` is the unweighted mean of the three per-session rates,
`(8/10 + 5/10 + 10/10) / 3`. -/
theorem report_success_rate_per_session_mean
    (f1 f2 f3 : SessionFile) (days now : Nat)
    (h1 : f1.start_time ≥ now - days * 86400)
    (h2 : f2.start_time ≥ now - days * 86400)
    (h3 : f3.start_time ≥ now - days * 86400)
    (e1 : f1.successful_commands = 8) (e1' : f1.failed_commands = 2)
    (e2 : f2.successful_commands = 5) (e2' : f2.failed_commands = 5)
    (e3 : f3.successful_commands = 10) (e3' : f3.failed_commands = 0) :
    (generate_report [f1, f2, f3] days now).success_rate
      = ((8 : Rat) / 10 + (5 : Rat) / 10 + (10 : Rat) / 10) / 3 := by
  have hf : [f1, f2, f3].filter (fun s => s.start_time ≥ now - days * 86400)
      = [f1, f2, f3] := by
    simp [List.filter, h1, h2, h3]
  simp only [generate_report, hf]
  simp [List.foldl, emptyReport, e1, e1', e2, e2', e3, e3']

/-- C3 witness: the scenario on concrete session files. -/
theorem report_success_rate_per_session_mean_witness :
    (generate_report
        [⟨0, 100, 100, [], [], 0, 0, 8, 2⟩,
         ⟨0, 100, 100, [], [], 0, 0, 5, 5⟩,
         ⟨0, 100, 100, [], [], 0, 0, 10, 0⟩] 7 0).success_rate
      = ((8 : Rat) / 10 + (5 : Rat) / 10 + (10 : Rat) / 10) / 3 :=
  report_success_rate_per_session_mean
    ⟨0, 100, 100, [], [], 0, 0, 8, 2⟩
    ⟨0, 100, 100, [], [], 0, 0, 5, 5⟩
    ⟨0, 100, 100, [], [], 0, 0, 10, 0⟩ 7 0
    (Nat.zero_le _) (Nat.zero_le _) (Nat.zero_le _) rfl rfl rfl rfl rfl rfl

/-! ### SystemMonitor snapshots and aliasing
(`SystemMonitor.get_current_metrics` is `self.current_metrics.copy()`, a
shallow dict copy.  To state what that shares, the Python list objects are
made explicit: a heap of list objects indexed by natural numbers, and the
`response_times` entry of the metrics dict is a reference into it.) -/

/-- The `current_metrics` dict: scalar values plus a reference to the
`response_times` list object. -/
structure MetricsDict where
  cpu_usage : Rat
  memory_usage : Rat
  disk_usage : Rat
  response_times : Nat
  error_count : Nat
deriving DecidableEq

/-- A `SystemMonitor`: the heap of list objects and the metrics dict. -/
structure SystemMonitorState where
  heap : List (List Rat)
  dict : MetricsDict
deriving DecidableEq

/-- `SystemMonitor.__init__`: zeroed scalars and a fresh empty
`response_times` list object. -/
def initSystemMonitor : SystemMonitorState :=
  { heap := [[]]
    dict := { cpu_usage := 0, memory_usage := 0, disk_usage := 0
              response_times := 0, error_count := 0 } }

/-- `SystemMonitor.get_current_metrics`: `self.current_metrics.copy()`.
The dict (scalar values and the `response_times` reference) is copied; the
list object behind the reference is not. -/
def get_current_metrics (s : SystemMonitorState) : MetricsDict :=
  s.dict

/-- Dereference a heap slot (out-of-range references read the default). -/
def heapGet {α : Type} : List α → Nat → α → α
  | [], _, d => d
  | c :: _, 0, _ => c
  | _ :: t, n + 1, d => heapGet t n d

lemma heapGet_set_self {α : Type} :
    ∀ (l : List α) (n : Nat) (x d : α), n < l.length →
      heapGet (l.set n x) n d = x
  | [], n, _, _, h => absurd h (by simp)
  | _ :: _, 0, _, _, _ => rfl
  | _ :: t, n + 1, x, d, h =>
      heapGet_set_self t n x d (by simpa using h)

lemma heapGet_append {α : Type} :
    ∀ (l1 l2 : List α) (n : Nat) (d : α), n < l1.length →
      heapGet (l1 ++ l2) n d = heapGet l1 n d
  | [], _, n, _, h => absurd h (by simp)
  | _ :: _, _, 0, _, _ => rfl
  | _ :: t, l2, n + 1, d, h =>
      heapGet_append t l2 n d (by simpa using h)

/-- What a holder of a metrics dict observes when reading it: the scalars
plus the current content of the referenced list object. -/
structure MetricsView where
  cpu_usage : Rat
  memory_usage : Rat
  disk_usage : Rat
  response_times : List Rat
  error_count : Nat
deriving DecidableEq

/-- Materialize a metrics dict against a heap. -/
def readMetrics (heap : List (List Rat)) (d : MetricsDict) : MetricsView :=
  { cpu_usage := d.cpu_usage, memory_usage := d.memory_usage
    disk_usage := d.disk_usage
    response_times := heapGet heap d.response_times []
    error_count := d.error_count }

/-- `SystemMonitor.record_response_time` on the monitor: mutate the
`response_times` list object in place (append, pop past 100 entries). -/
def monitorRecordResponseTime (s : SystemMonitorState) (t : Rat) :
    SystemMonitorState :=
  let buf := heapGet s.heap s.dict.response_times []
  { s with heap := s.heap.set s.dict.response_times (record_response_time buf t) }

/-- `SystemMonitor.record_error` on the monitor state: bump `error_count`
(the appending of the error detail to `errors.json` does not touch
`current_metrics` and is not modelled here). -/
def monitorRecordError (s : SystemMonitorState) : SystemMonitorState :=
  { s with dict := { s.dict with error_count := s.dict.error_count + 1 } }

/-! ### MetricsCollector storage (`src/monitoring/metrics_collector.py`) -/

/-- The `MetricPoint` dataclass. -/
structure MetricPoint where
  timestamp : Nat
  value : Rat
  labels : List (String × String)
deriving DecidableEq

/-- A `MetricsCollector`: the heap of list objects, the `_metrics_data`
dict mapping metric names to list-object references, and the collection
thread handle (for `start_collection`). -/
structure CollectorState where
  heap : List (List MetricPoint)
  data : List (String × Nat)
  collection_thread : Option Nat
deriving DecidableEq

/-- Content of the list object at reference `r`. -/
def readCell (heap : List (List MetricPoint)) (r : Nat) : List MetricPoint :=
  heapGet heap r []

/-- Replace the reference stored under `name` in `_metrics_data`. -/
def setEntry (l : List (String × Nat)) (name : String) (r : Nat) :
    List (String × Nat) :=
  l.map (fun p => if p.1 = name then (name, r) else p)

/-- `MetricsCollector.get_metrics` with no time filters: `return metrics`
hands back the stored list object itself, i.e. a live reference (`none`
models the fresh `[]` returned for an unknown name). -/
def collector_get_metrics (s : CollectorState) (name : String) : Option Nat :=
  s.data.lookup name

/-- `MetricsCollector._store_metric`: append the new point to the list
object `_metrics_data[name]` references (creating a fresh empty object
when the name is new), then rebind `_metrics_data[name]` to a brand-new
list holding only the points newer than the retention cutoff.  The old
object keeps the appended point and stays visible to anyone still holding
it. -/
def store_metric (s : CollectorState) (name : String) (value : Rat)
    (timestamp : Nat) (labels : List (String × String))
    (retention_days : Nat) (now : Nat) : CollectorState :=
  let hdr :=
    match s.data.lookup name with
    | some r => (s.heap, s.data, r)
    | none => (s.heap ++ [[]], s.data ++ [(name, s.heap.length)], s.heap.length)
  let heap := hdr.1
  let data := hdr.2.1
  let r := hdr.2.2
  let point : MetricPoint := { timestamp := timestamp, value := value, labels := labels }
  let heap := heap.set r (readCell heap r ++ [point])
  let cutoff := now - retention_days * 86400
  let filtered := (readCell heap r).filter (fun p => p.timestamp > cutoff)
  { heap := heap ++ [filtered]
    data := setEntry data name heap.length
    collection_thread := s.collection_thread }

/-- C7 (counterexample): the claim that reader snapshots share no mutable
structure fails already for a fresh `SystemMonitor`: take the snapshot
returned by `get_current_metrics`, then call `record_response_time(1)`;
reading the snapshot afterwards shows the appended value, because the
shallow dict copy shares the `response_times` list object. -/
theorem snapshot_shares_response_times :
    ¬ (readMetrics (monitorRecordResponseTime initSystemMonitor 1).heap
          (get_current_metrics initSystemMonitor)
        = readMetrics initSystemMonitor.heap
          (get_current_metrics initSystemMonitor)) := by
  decide

/-- C7 (amended): snapshots are shallow.  The scalar entries of the dict
returned by `get_current_metrics` are value copies — `record_error` bumps
the monitor's `error_count` without changing what the old snapshot reads —
but the `response_times` entry is a shared reference, so after
`record_response_time` the old snapshot reads the updated buffer.
Likewise `MetricsCollector.get_metrics` (no time filters) returns the
internal list object itself, and the append inside the next
`_store_metric` is visible through it. -/
theorem snapshot_sharing_shallow (s : SystemMonitorState) (t : Rat)
    (c : CollectorState) (name : String) (r : Nat) (v : Rat) (ts : Nat)
    (lab : List (String × String)) (ret now : Nat)
    (hs : s.dict.response_times < s.heap.length)
    (hr : collector_get_metrics c name = some r) (hlt : r < c.heap.length) :
    (monitorRecordError s).dict.error_count = s.dict.error_count + 1 ∧
    readMetrics (monitorRecordError s).heap (get_current_metrics s)
      = readMetrics s.heap (get_current_metrics s) ∧
    (readMetrics (monitorRecordResponseTime s t).heap
        (get_current_metrics s)).response_times
      = record_response_time
          (readMetrics s.heap (get_current_metrics s)).response_times t ∧
    readCell (store_metric c name v ts lab ret now).heap r
      = readCell c.heap r ++ [{ timestamp := ts, value := v, labels := lab }] := by
  have hlook : c.data.lookup name = some r := hr
  refine ⟨rfl, rfl, ?_, ?_⟩
  · show heapGet (s.heap.set s.dict.response_times
        (record_response_time (heapGet s.heap s.dict.response_times []) t))
        s.dict.response_times []
      = record_response_time (heapGet s.heap s.dict.response_times []) t
    exact heapGet_set_self _ _ _ _ hs
  · simp only [store_metric, hlook, readCell]
    rw [heapGet_append _ _ _ _ (by rw [List.length_set]; exact hlt),
      heapGet_set_self _ _ _ _ hlt]

/-- C7 witness: the amended statement on a one-slot monitor and a
collector holding one `cpu_usage` point. -/
theorem snapshot_sharing_shallow_witness :
    (⟨[[]], ⟨0, 0, 0, 0, 0⟩⟩ : SystemMonitorState).dict.response_times
        < (⟨[[]], ⟨0, 0, 0, 0, 0⟩⟩ : SystemMonitorState).heap.length ∧
    collector_get_metrics ⟨[[⟨5, 42, []⟩]], [("cpu_usage", 0)], none⟩ "cpu_usage"
        = some 0 ∧
    readCell (store_metric ⟨[[⟨5, 42, []⟩]], [("cpu_usage", 0)], none⟩
        "cpu_usage" 43 6 [] 7 700000).heap 0
      = readCell (⟨[[⟨5, 42, []⟩]], [("cpu_usage", 0)], none⟩ : CollectorState).heap 0
          ++ [{ timestamp := 6, value := 43, labels := [] }] :=
  ⟨by decide, by decide,
    (snapshot_sharing_shallow ⟨[[]], ⟨0, 0, 0, 0, 0⟩⟩ 1
      ⟨[[⟨5, 42, []⟩]], [("cpu_usage", 0)], none⟩ "cpu_usage" 0 43 6 [] 7 700000
      (by decide) (by decide) (by decide)).2.2.2⟩

/-! ### AlertManager (`src/monitoring/alert_manager.py`) -/

/-- The metadata dict attached to performance alerts (the shape built by
`PerformanceMonitor._trigger_alert` / `MetricsCollector._trigger_alert`). -/
structure PerfMetadata where
  metric : String
  value : Rat
  threshold : Rat
  timestamp : Nat
deriving DecidableEq

/-- The alert dict built at the top of `AlertManager.trigger_alert`. -/
structure Alert where
  title : String
  message : String
  severity : String
  timestamp : Nat
  metadata : Option PerfMetadata
deriving DecidableEq

/-- An `AlertManager`: the two channel switches read from the config and
the in-memory `_alert_history`. -/
structure AlertManagerState where
  email_enabled : Bool
  slack_enabled : Bool
  alert_history : List Alert
deriving DecidableEq

/-- What one channel-dispatch helper call did: whether it attempted the
send, and the exception (if any) escaping the helper. -/
structure DispatchOutcome where
  attempted : Bool
  raised : Option String
deriving DecidableEq

/-- `AlertManager._send_email_alert`: early return when email is disabled;
otherwise the whole SMTP interaction runs inside `try`/`except`, whose
handler only logs, so even a failing send (`sendFails`) raises nothing to
the caller. -/
def send_email_alert (enabled sendFails : Bool) : DispatchOutcome :=
  if !enabled then { attempted := false, raised := none }
  else
    match (if sendFails then Except.error "SMTP error" else Except.ok ()
        : Except String Unit) with
    | Except.ok _ => { attempted := true, raised := none }
    | Except.error _ => { attempted := true, raised := none }

/-- `AlertManager._send_slack_alert`: same shape as the email helper (the
webhook post runs inside `try`/`except` that only logs). -/
def send_slack_alert (enabled sendFails : Bool) : DispatchOutcome :=
  if !enabled then { attempted := false, raised := none }
  else
    match (if sendFails then Except.error "HTTP error" else Except.ok ()
        : Except String Unit) with
    | Except.ok _ => { attempted := true, raised := none }
    | Except.error _ => { attempted := true, raised := none }

/-- Result of `AlertManager.trigger_alert`. -/
structure TriggerResult where
  state : AlertManagerState
  emailAttempted : Bool
  slackAttempted : Bool
  raised : Option String
deriving DecidableEq

/-- `AlertManager.trigger_alert`: build the alert dict, append it to
`_alert_history`, then inside an outer `try` dispatch email first and
Slack second.  An exception escaping the email helper would skip the Slack
call and be swallowed by the outer handler; the helpers, however, never
let one escape. -/
def trigger_alert (st : AlertManagerState) (title message severity : String)
    (metadata : Option PerfMetadata) (now : Nat)
    (emailFails slackFails : Bool) : TriggerResult :=
  let alert : Alert :=
    { title := title, message := message, severity := severity
      timestamp := now, metadata := metadata }
  let st := { st with alert_history := st.alert_history ++ [alert] }
  let emailRes :=
    if st.email_enabled then send_email_alert true emailFails
    else { attempted := false, raised := none }
  match emailRes.raised with
  | some _ =>
      { state := st, emailAttempted := emailRes.attempted
        slackAttempted := false, raised := none }
  | none =>
      let slackRes :=
        if st.slack_enabled then send_slack_alert true slackFails
        else { attempted := false, raised := none }
      { state := st, emailAttempted := emailRes.attempted
        slackAttempted := slackRes.attempted, raised := none }

/-- C8: with both channels enabled, a failure inside the email dispatch
neither prevents the Slack dispatch from being attempted nor prevents the
alert from being appended to the history, and symmetrically a Slack
failure does not prevent the email dispatch or the history append — for
every combination of channel failures. -/
theorem channel_failure_isolated (st : AlertManagerState)
    (title message severity : String) (metadata : Option PerfMetadata)
    (now : Nat) (emailFails slackFails : Bool)
    (he : st.email_enabled = true) (hs : st.slack_enabled = true) :
    (trigger_alert st title message severity metadata now
        emailFails slackFails).slackAttempted = true ∧
    (trigger_alert st title message severity metadata now
        emailFails slackFails).emailAttempted = true ∧
    (trigger_alert st title message severity metadata now
        emailFails slackFails).state.alert_history
      = st.alert_history ++
          [{ title := title, message := message, severity := severity
             timestamp := now, metadata := metadata }] := by
  cases emailFails <;> cases slackFails <;>
    simp [trigger_alert, send_email_alert, send_slack_alert, he, hs]

/-- C8 witness: an SMTP failure with both channels on. -/
theorem channel_failure_isolated_witness :
    (trigger_alert ⟨true, true, []⟩ "t" "m" "warning" none 5 true false).slackAttempted
        = true ∧
    (trigger_alert ⟨true, true, []⟩ "t" "m" "warning" none 5
        true false).state.alert_history
      = [{ title := "t", message := "m", severity := "warning"
           timestamp := 5, metadata := none }] :=
  ⟨(channel_failure_isolated ⟨true, true, []⟩ "t" "m" "warning" none 5 true false
      rfl rfl).1,
    (channel_failure_isolated ⟨true, true, []⟩ "t" "m" "warning" none 5 true false
      rfl rfl).2.2⟩

/-! ### PerformanceMonitor thresholds (`src/monitoring/performance_monitor.py`) -/

/-- The default `monitoring.thresholds` dict of `PerformanceMonitor.__init__`. -/
def defaultThresholds : List (String × Rat) :=
  [("cpu_percent", 80), ("memory_percent", 85), ("disk_percent", 90),
   ("response_time", 2)]

/-- `PerformanceMonitor._trigger_alert`: build a fresh `AlertManager` from
the config and call `trigger_alert` on it; the result is that manager's
one-element history (the `{value:.1f}` number formatting inside the
message string is not modelled). -/
def perf_trigger_alert (metric_name : String) (value threshold : Rat)
    (now : Nat) (email_enabled slack_enabled emailFails slackFails : Bool) :
    List Alert :=
  (trigger_alert
    { email_enabled := email_enabled, slack_enabled := slack_enabled
      alert_history := [] }
    (String.append "Performance Alert: " metric_name)
    (String.append "Performance metric "
      (String.append metric_name " exceeded threshold"))
    "warning"
    (some { metric := metric_name, value := value, threshold := threshold
            timestamp := now })
    now emailFails slackFails).state.alert_history

/-- `PerformanceMonitor._check_thresholds`: for each sampled metric with a
configured threshold, trigger an alert when `value >= threshold`.  The
result collects the alerts appended to the (per-breach, freshly created)
alert-manager histories during the check cycle. -/
def check_thresholds (thresholds : List (String × Rat))
    (metrics : List (String × Rat)) (now : Nat)
    (email_enabled slack_enabled emailFails slackFails : Bool) : List Alert :=
  metrics.foldl
    (fun alerts m =>
      match thresholds.lookup m.1 with
      | some threshold =>
          if m.2 ≥ threshold then
            alerts ++ perf_trigger_alert m.1 m.2 threshold now
              email_enabled slack_enabled emailFails slackFails
          else alerts
      | none => alerts)
    []

/-- A breach's `_trigger_alert` appends exactly its one alert, whatever
the channel configuration and dispatch outcomes. -/
lemma perf_trigger_alert_eq (metric_name : String) (value threshold : Rat)
    (now : Nat) (ee se ef sf : Bool) :
    perf_trigger_alert metric_name value threshold now ee se ef sf
      = [{ title := String.append "Performance Alert: " metric_name
           message := String.append "Performance metric "
             (String.append metric_name " exceeded threshold")
           severity := "warning", timestamp := now
           metadata := some { metric := metric_name, value := value
                              threshold := threshold, timestamp := now } }] := by
  cases ee <;> cases se <;> cases ef <;> cases sf <;> rfl

/-- C9: in a check cycle sampling `cpu_percent = 85` (with memory and disk
below their thresholds), exactly one alert is appended, and it carries
`metadata.metric == "cpu_percent"` and `metadata.value == 85`; a
`cpu_percent` sample below the threshold 80 appends no alert at all. -/
theorem threshold_breach_single_alert (m d v : Rat) (now : Nat)
    (ee se ef sf : Bool) (hm : m < 85) (hd : d < 90) (hv : v < 80) :
    (List.filter
        (fun a => match a.metadata with
          | some md => md.metric == "cpu_percent" && md.value == 85
          | none => false)
        (check_thresholds defaultThresholds
          [("cpu_percent", 85), ("memory_percent", m), ("disk_percent", d)]
          now ee se ef sf)).length = 1 ∧
    (check_thresholds defaultThresholds
        [("cpu_percent", 85), ("memory_percent", m), ("disk_percent", d)]
        now ee se ef sf).length = 1 ∧
    check_thresholds defaultThresholds [("cpu_percent", v)] now ee se ef sf
      = [] := by
  have h85 : ¬ (m ≥ 85) := not_le.mpr hm
  have h90 : ¬ (d ≥ 90) := not_le.mpr hd
  have h80 : ¬ (v ≥ 80) := not_le.mpr hv
  have hcpu : (80 : Rat) ≤ 85 := by norm_num
  refine ⟨?_, ?_, ?_⟩ <;>
    simp [check_thresholds, defaultThresholds, List.lookup,
      perf_trigger_alert_eq, h85, h90, h80, hcpu]

/-- C9 witness: memory 50, disk 50, a below-threshold cpu sample of 70. -/
theorem threshold_breach_single_alert_witness :
    (check_thresholds defaultThresholds
        [("cpu_percent", 85), ("memory_percent", 50), ("disk_percent", 50)]
        3 true true false false).length = 1 ∧
    check_thresholds defaultThresholds [("cpu_percent", 70)] 3
        true true false false = [] :=
  ⟨(threshold_breach_single_alert 50 50 70 3 true true false false
      (by norm_num) (by norm_num) (by norm_num)).2.1,
    (threshold_breach_single_alert 50 50 70 3 true true false false
      (by norm_num) (by norm_num) (by norm_num)).2.2⟩

/-! ### Start guards (`PerformanceMonitor.start_monitoring`,
`MetricsCollector.start_collection`) -/

/-- One stored `PerformanceMetric` (the metadata dict is not inspected by
any claim and is left out). -/
structure PerformanceMetricRec where
  timestamp : Nat
  name : String
  value : Rat
deriving DecidableEq

/-- The mutable state of a `PerformanceMonitor`: the five metric deques,
the thresholds, the monitoring-thread handle and the stop event. -/
structure PerformanceMonitorState where
  metrics : List (String × List PerformanceMetricRec)
  thresholds : List (String × Rat)
  monitor_thread : Option Nat
  stop_flag : Bool
deriving DecidableEq

/-- `PerformanceMonitor.start_monitoring`: `if self._monitor_thread is not
None: return`, else record and start a new thread.  The second component
lists the threads this call spawned. -/
def pm_start_monitoring (s : PerformanceMonitorState) (newThread : Nat) :
    PerformanceMonitorState × List Nat :=
  if s.monitor_thread.isSome then (s, [])
  else ({ s with monitor_thread := some newThread }, [newThread])

/-- `MetricsCollector.start_collection`: `if self._collection_thread is
not None: return`, else record and start a new thread. -/
def mc_start_collection (s : CollectorState) (newThread : Nat) :
    CollectorState × List Nat :=
  if s.collection_thread.isSome then (s, [])
  else ({ s with collection_thread := some newThread }, [newThread])

/-- C10: when a monitoring/collection thread already exists, a second
`start_monitoring` (resp. `start_collection`) call returns immediately,
leaves the whole state unchanged, and spawns no thread. -/
theorem double_start_is_noop (p : PerformanceMonitorState) (c : CollectorState)
    (t u tid tid2 : Nat)
    (hp : p.monitor_thread = some t) (hc : c.collection_thread = some u) :
    pm_start_monitoring p tid = (p, []) ∧
    mc_start_collection c tid2 = (c, []) := by
  constructor
  · simp [pm_start_monitoring, hp]
  · simp [mc_start_collection, hc]

/-- C10 witness: both components already running. -/
theorem double_start_is_noop_witness :
    pm_start_monitoring ⟨[], [], some 7, false⟩ 9 = (⟨[], [], some 7, false⟩, []) ∧
    mc_start_collection ⟨[], [], some 8⟩ 9 = (⟨[], [], some 8⟩, []) :=
  double_start_is_noop ⟨[], [], some 7, false⟩ ⟨[], [], some 8⟩ 7 8 9 9 rfl rfl
